import Mathlib

/-!
Verification of the demo-mode authentication and session manager of the
nebula-agent-studio landing page (AuthContext.tsx, AuthModal.tsx), as a
shallow embedding in Lean.  The session manager holds an optional provider
user, an optional provider session, an optional demo identity, and the
single client-local storage slot keyed demo_user; each facade operation is
embedded as a pure state transformer, and the provider is modelled as an
opaque result value (success or an error message) threaded into the
configured branches.
-/

set_option linter.unusedVariables false

namespace Nebula

/-- A locally simulated identity used when no provider is configured
(interface DemoUser in AuthContext.tsx). -/
structure DemoUser where
  name : String
  email : String
deriving DecidableEq, Repr

/-- The metadata fields of the provider user that getUserDisplayName reads.
Each is optional: absent models an undefined field. -/
structure UserMetadata where
  full_name : Option String
  name : Option String
  preferred_username : Option String
deriving DecidableEq, Repr

/-- The provider user as consumed by this code: an opaque id, an optional
email and the metadata map. -/
structure SupaUser where
  id : String
  email : Option String
  user_metadata : UserMetadata
deriving DecidableEq, Repr

/-- The provider session; the code only ever reads its user field. -/
structure Session where
  user : SupaUser
deriving DecidableEq, Repr

/-- The whole observable state: the four useState slots of AuthProvider
(user, session, isLoading, demoUser) plus the client-local storage slot
under the single key demo_user (none models an absent key). -/
structure World where
  user : Option SupaUser
  session : Option Session
  isLoading : Bool
  demoUser : Option DemoUser
  storage : Option DemoUser
deriving DecidableEq, Repr

/-- The opaque outcome that the external provider reports for one call. -/
inductive ProviderResult where
  | ok
  | err (msg : String)
deriving DecidableEq, Repr

/-- The two OAuth providers accepted by loginWithOAuth. -/
inductive OAuthProvider where
  | google
  | github
deriving DecidableEq, Repr

/-- The literal provider string. -/
def providerName : OAuthProvider → String
  | OAuthProvider.google => "google"
  | OAuthProvider.github => "github"

/-- JavaScript String.prototype.split with a one-character separator, on
the character list of the string; split never returns an empty list. -/
def jsSplit (sep : Char) : List Char → List (List Char)
  | [] => [[]]
  | c :: cs =>
    let rest := jsSplit sep cs
    if c = sep then [] :: rest
    else (c :: rest.headD []) :: rest.tail

/-- Embeds email.split(sep)[0] from the source: the first segment of the
split. -/
def emailLocalPart (s : String) : String :=
  String.mk ((jsSplit '@' s.data).headD [])

/-- The first segment of a split is exactly the run of characters before
the first occurrence of the separator. -/
theorem jsSplit_headD (sep : Char) (l : List Char) :
    (jsSplit sep l).headD [] = l.takeWhile (fun c => c != sep) := by
  induction l with
  | nil => rfl
  | cons c cs ih =>
    by_cases h : c = sep
    · simp [jsSplit, h]
    · simp [jsSplit, h]
      simpa using ih

/-- Embeds provider.charAt(0).toUpperCase() + provider.slice(1). -/
def capitalizeFirst (s : String) : String :=
  match s.data with
  | [] => ""
  | c :: cs => String.mk (c.toUpper :: cs)

/-- Embeds name.toLowerCase().replace(whitespace, empty) from demoLogin:
removes every whitespace character. -/
def stripSpaces (s : String) : String :=
  String.mk (s.data.filter (fun c => !c.isWhitespace))

/-- JavaScript truthiness filter for an optional string: undefined and
the empty string are falsy. -/
def truthyStr : Option String → Option String
  | some s => if s = "" then none else some s
  | none => none

/-- Embeds login(email, password) of AuthContext.tsx.  In demo mode it
synthesizes a DemoUser from the email local part, stores it in the demo
slot and persists it; in configured mode it delegates to the provider
password sign-in and rethrows any provider error, with no direct state
change. -/
def login (configured : Bool) (email password : String) (r : ProviderResult)
    (w : World) : Except String World :=
  if !configured then
    let demo : DemoUser := ⟨emailLocalPart email, email⟩
    Except.ok { w with demoUser := some demo, storage := some demo }
  else
    match r with
    | ProviderResult.ok => Except.ok w
    | ProviderResult.err m => Except.error m

/-- Embeds register(name, email, password) of AuthContext.tsx.  The
configured branch passes the name as full-name and name metadata to the
provider sign-up, which stays opaque here; it rethrows provider errors
and makes no direct state change. -/
def register (configured : Bool) (name email password : String)
    (r : ProviderResult) (w : World) : Except String World :=
  if !configured then
    let demo : DemoUser := ⟨name, email⟩
    Except.ok { w with demoUser := some demo, storage := some demo }
  else
    match r with
    | ProviderResult.ok => Except.ok w
    | ProviderResult.err m => Except.error m

/-- Embeds loginWithOAuth(provider) of AuthContext.tsx. -/
def loginWithOAuth (configured : Bool) (p : OAuthProvider)
    (r : ProviderResult) (w : World) : Except String World :=
  if !configured then
    let demo : DemoUser :=
      ⟨capitalizeFirst (providerName p) ++ " User",
       "demo@" ++ providerName p ++ ".com"⟩
    Except.ok { w with demoUser := some demo, storage := some demo }
  else
    match r with
    | ProviderResult.ok => Except.ok w
    | ProviderResult.err m => Except.error m

/-- Embeds logout() of AuthContext.tsx: demo mode clears the demo slot and
the persisted record; configured mode delegates to the provider sign-out
and rethrows errors, with no direct state change. -/
def logout (configured : Bool) (r : ProviderResult) (w : World) :
    Except String World :=
  if !configured then
    Except.ok { w with demoUser := none, storage := none }
  else
    match r with
    | ProviderResult.ok => Except.ok w
    | ProviderResult.err m => Except.error m

/-- Embeds demoLogin(name) of AuthContext.tsx: note that this operation is
not guarded by the configured flag in the source. -/
def demoLogin (name : String) (w : World) : World :=
  let demo : DemoUser := ⟨name, stripSpaces name.toLower ++ "@demo.com"⟩
  { w with demoUser := some demo, storage := some demo }

/-- Embeds getUserDisplayName of AuthContext.tsx, with the JavaScript
falsy-chaining of the metadata fields made explicit by truthyStr. -/
def getUserDisplayName (w : World) : String :=
  match w.demoUser with
  | some d => d.name
  | none =>
    match w.user with
    | none => ""
    | some u =>
      match truthyStr u.user_metadata.full_name with
      | some s => s
      | none =>
        match truthyStr u.user_metadata.name with
        | some s => s
        | none =>
          match truthyStr u.user_metadata.preferred_username with
          | some s => s
          | none =>
            match truthyStr (u.email.map emailLocalPart) with
            | some s => s
            | none => "User"

/-- Embeds the derived value isLoggedIn = !!user || !!demoUser. -/
def isLoggedIn (w : World) : Bool :=
  w.user.isSome || w.demoUser.isSome

/-- On a thrown provider error the state is left as it was; on success the
state returned by the operation is adopted. -/
def stepOfResult (w : World) : Except String World → World
  | Except.ok w' => w'
  | Except.error _ => w

/-- The events that drive the session manager: the mount-time
initialization (the demo-mode storage read, or the configured-mode
getSession resolution or rejection), the provider session-change
notifications, and the five facade operations. -/
inductive AuthEvent where
  | initDemoLoad
  | initSessionOk (s : Option Session)
  | initSessionFail
  | sessionChange (s : Option Session)
  | loginEv (email password : String) (r : ProviderResult)
  | registerEv (name email password : String) (r : ProviderResult)
  | oauthEv (p : OAuthProvider) (r : ProviderResult)
  | logoutEv (r : ProviderResult)
  | demoLoginEv (name : String)
deriving DecidableEq, Repr

/-- Embeds the shared body of the getSession continuation and the
onAuthStateChange callback: setSession, setUser(session user or null),
setIsLoading(false). -/
def applySession (s : Option Session) (w : World) : World :=
  { w with session := s, user := s.map Session.user, isLoading := false }

/-- One transition of the session manager.  Facade operations that throw a
provider error leave the state as it was. -/
def step (configured : Bool) (w : World) : AuthEvent → World
  | AuthEvent.initDemoLoad =>
    match w.storage with
    | some d => { w with demoUser := some d, isLoading := false }
    | none => { w with isLoading := false }
  | AuthEvent.initSessionOk s => applySession s w
  | AuthEvent.initSessionFail => { w with isLoading := false }
  | AuthEvent.sessionChange s => applySession s w
  | AuthEvent.loginEv e p r => stepOfResult w (login configured e p r w)
  | AuthEvent.registerEv n e p r => stepOfResult w (register configured n e p r w)
  | AuthEvent.oauthEv pr r => stepOfResult w (loginWithOAuth configured pr r w)
  | AuthEvent.logoutEv r => stepOfResult w (logout configured r w)
  | AuthEvent.demoLoginEv n => demoLogin n w

/-- Which events can occur in which mode: the demo-mode storage read only
happens when the provider is unconfigured, and the getSession resolution
and session-change notifications only exist while it is configured. -/
def canFire (configured : Bool) : AuthEvent → Bool
  | AuthEvent.initDemoLoad => !configured
  | AuthEvent.initSessionOk _ => configured
  | AuthEvent.initSessionFail => configured
  | AuthEvent.sessionChange _ => configured
  | _ => true

/-- Runs a sequence of events from a starting state. -/
def run (configured : Bool) (w : World) (es : List AuthEvent) : World :=
  es.foldl (step configured) w

/-- The state at mount: every slot empty, isLoading true, no persisted
record. -/
def initWorld : World := ⟨none, none, true, none, none⟩

/-- At most one of the provider identity and the demo identity is
non-null. -/
def atMostOneIdentity (w : World) : Prop :=
  w.user = none ∨ w.demoUser = none

/-- In demo mode no event ever sets the provider user: the user slot stays
empty along every demo-mode trace. -/
theorem demo_mode_user_none (es : List AuthEvent) (w : World)
    (hv : ∀ e ∈ es, canFire false e = true) (hu : w.user = none) :
    (run false w es).user = none := by
  induction es generalizing w with
  | nil => exact hu
  | cons e es ih =>
    have he : canFire false e = true := hv e (List.mem_cons_self e es)
    have hv' : ∀ x ∈ es, canFire false x = true :=
      fun x hx => hv x (List.mem_cons_of_mem e hx)
    have hstep : (step false w e).user = none := by
      cases e with
      | initDemoLoad =>
        cases hs : w.storage <;> simp [step, hs, hu]
      | initSessionOk s => simp [canFire] at he
      | initSessionFail => simp [step, hu]
      | sessionChange s => simp [canFire] at he
      | loginEv a b r => simp [step, login, stepOfResult, hu]
      | registerEv a b c r => simp [step, register, stepOfResult, hu]
      | oauthEv p r => simp [step, loginWithOAuth, stepOfResult, hu]
      | logoutEv r => simp [step, logout, stepOfResult, hu]
      | demoLoginEv n => simp [step, demoLogin, hu]
    exact ih (step false w e) hv' hstep

/-- In configured mode, as long as demoLogin is never invoked, no event
ever sets the demo identity: the demo slot stays empty along every such
trace. -/
theorem configured_mode_demo_none (es : List AuthEvent) (w : World)
    (hv : ∀ e ∈ es, canFire true e = true)
    (hnd : ∀ n, AuthEvent.demoLoginEv n ∉ es)
    (hd : w.demoUser = none) :
    (run true w es).demoUser = none := by
  induction es generalizing w with
  | nil => exact hd
  | cons e es ih =>
    have he : canFire true e = true := hv e (List.mem_cons_self e es)
    have hv' : ∀ x ∈ es, canFire true x = true :=
      fun x hx => hv x (List.mem_cons_of_mem e hx)
    have hnd' : ∀ n, AuthEvent.demoLoginEv n ∉ es := by
      intro n hn
      exact hnd n (List.mem_cons_of_mem e hn)
    have hstep : (step true w e).demoUser = none := by
      cases e with
      | initDemoLoad => simp [canFire] at he
      | initSessionOk s => simp [step, applySession, hd]
      | initSessionFail => simp [step, hd]
      | sessionChange s => simp [step, applySession, hd]
      | loginEv a b r =>
        cases r <;> simp [step, login, stepOfResult, hd]
      | registerEv a b c r =>
        cases r <;> simp [step, register, stepOfResult, hd]
      | oauthEv p r =>
        cases r <;> simp [step, loginWithOAuth, stepOfResult, hd]
      | logoutEv r =>
        cases r <;> simp [step, logout, stepOfResult, hd]
      | demoLoginEv n =>
        exact absurd (List.mem_cons_self _ es) (fun hc => hnd n hc)
    exact ih (step true w e) hv' hnd' hstep

/-- A concrete provider user with no display metadata, as delivered by a
session-change notification. -/
def grace : SupaUser := ⟨"u1", some "grace@x.com", ⟨none, none, none⟩⟩

/-- A concrete provider session holding that user. -/
def graceSession : Session := ⟨grace⟩

/-- C2, counterexample: the claim quantifies over sequences of the
operations including demoLogin and the session-change notifications; in
configured mode, a session-change notification followed by demoLogin is a
valid sequence that leaves both the provider identity and the demo
identity non-null, because demoLogin is not guarded by the configured
flag. -/
theorem auth_identity_exclusive_cex :
    (∀ e ∈ [AuthEvent.sessionChange (some graceSession),
            AuthEvent.demoLoginEv "Ada"], canFire true e = true) ∧
    (run true initWorld [AuthEvent.sessionChange (some graceSession),
       AuthEvent.demoLoginEv "Ada"]).user ≠ none ∧
    (run true initWorld [AuthEvent.sessionChange (some graceSession),
       AuthEvent.demoLoginEv "Ada"]).demoUser ≠ none := by
  decide

/-- C2 (amended): in every state reachable by a sequence of the session
manager events, at most one of the provider identity and the demo
identity is non-null, provided demoLogin is never invoked while the
provider is configured.  In demo mode the provider user can never be set;
in configured mode (without demoLogin) the demo identity can never be
set. -/
theorem auth_identity_exclusive (configured : Bool) (es : List AuthEvent)
    (hv : ∀ e ∈ es, canFire configured e = true)
    (hnd : configured = true → ∀ n, AuthEvent.demoLoginEv n ∉ es) :
    atMostOneIdentity (run configured initWorld es) := by
  cases configured with
  | false => exact Or.inl (demo_mode_user_none es initWorld hv rfl)
  | true => exact Or.inr (configured_mode_demo_none es initWorld hv (hnd rfl) rfl)

/-- C2, witness: the amended invariant instantiated on a concrete
demo-mode trace with a login, an OAuth login and a logout. -/
theorem auth_identity_exclusive_witness :
    atMostOneIdentity (run false initWorld
      [AuthEvent.loginEv "ada@x.com" "pw" ProviderResult.ok,
       AuthEvent.oauthEv OAuthProvider.google ProviderResult.ok,
       AuthEvent.logoutEv ProviderResult.ok]) :=
  auth_identity_exclusive false
    [AuthEvent.loginEv "ada@x.com" "pw" ProviderResult.ok,
     AuthEvent.oauthEv OAuthProvider.google ProviderResult.ok,
     AuthEvent.logoutEv ProviderResult.ok]
    (by decide) (by intro h; cases h)

/-- C4: in configured mode, a provider error from the password sign-in is
propagated to the caller and the whole state (user, session, demoUser and
the persisted storage slot) is left unchanged; and even on provider
success the login call makes no direct state change, so the step relation
leaves the state fixed for every provider outcome. -/
theorem configured_login_error_propagation (email password msg : String)
    (w : World) :
    login true email password (ProviderResult.err msg) w = Except.error msg ∧
    stepOfResult w (login true email password (ProviderResult.err msg) w) = w ∧
    login true email password ProviderResult.ok w = Except.ok w ∧
    (∀ r : ProviderResult,
      step true w (AuthEvent.loginEv email password r) = w) := by
  refine ⟨rfl, rfl, rfl, ?_⟩
  intro r
  cases r <;> rfl

/-- C7: in demo mode, login always succeeds, synthesizes the demo identity
whose name is the email local part and whose email is the given email, and
writes it both to the in-memory demo slot and the persisted storage before
returning; the local part is exactly the run of characters before the
first at-sign. -/
theorem demo_login_synthesizes (email password : String)
    (r : ProviderResult) (w : World) :
    login false email password r w =
      Except.ok { w with demoUser := some ⟨emailLocalPart email, email⟩,
                         storage := some ⟨emailLocalPart email, email⟩ } ∧
    (emailLocalPart email).data =
      email.data.takeWhile (fun c => c != '@') := by
  refine ⟨rfl, ?_⟩
  simpa [emailLocalPart] using jsSplit_headD '@' email.data

/-- C8: in demo mode, loginWithOAuth synthesizes and persists the demo
identity Google User with email demo@google.com for the google provider,
and Github User with email demo@github.com for the github provider. -/
theorem demo_oauth_synthesizes (r : ProviderResult) (w : World) :
    loginWithOAuth false OAuthProvider.google r w =
      Except.ok { w with demoUser := some ⟨"Google User", "demo@google.com"⟩,
                         storage := some ⟨"Google User", "demo@google.com"⟩ } ∧
    loginWithOAuth false OAuthProvider.github r w =
      Except.ok { w with demoUser := some ⟨"Github User", "demo@github.com"⟩,
                         storage := some ⟨"Github User", "demo@github.com"⟩ } := by
  constructor <;> rfl

/-- The four facade calls of the demo-mode storage claim. -/
def DemoSessionOp : AuthEvent → Prop
  | AuthEvent.loginEv _ _ _ => True
  | AuthEvent.registerEv _ _ _ _ => True
  | AuthEvent.oauthEv _ _ => True
  | AuthEvent.logoutEv _ => True
  | _ => False

/-- The demo identity a facade call synthesizes in demo mode (none for
logout, which clears the record). -/
def demoSynthesized : AuthEvent → Option DemoUser
  | AuthEvent.loginEv email _ _ => some ⟨emailLocalPart email, email⟩
  | AuthEvent.registerEv name email _ _ => some ⟨name, email⟩
  | AuthEvent.oauthEv p _ =>
    some ⟨capitalizeFirst (providerName p) ++ " User",
          "demo@" ++ providerName p ++ ".com"⟩
  | _ => none

/-- C3: after every login, register, OAuth or logout call of a demo-mode
sequence, the persisted storage slot holds exactly the identity
synthesized by that most recent call (absent after logout), the in-memory
demo slot agrees with it, and the single-key storage holds at most one
record.  Because every demo-mode call overwrites the slot wholesale, only
the last call matters. -/
theorem demo_storage_tracks_last_call (w : World) (es : List AuthEvent)
    (op : AuthEvent) (hop : DemoSessionOp op) :
    (run false w (es ++ [op])).storage = demoSynthesized op ∧
    (run false w (es ++ [op])).demoUser = demoSynthesized op ∧
    (run false w (es ++ [op])).storage.toList.length ≤ 1 := by
  have hrun : run false w (es ++ [op]) = step false (run false w es) op := by
    simp [run, List.foldl_append]
  rw [hrun]
  cases op with
  | loginEv a b r =>
    refine ⟨rfl, rfl, ?_⟩
    simp [step, login, stepOfResult]
  | registerEv a b c r =>
    refine ⟨rfl, rfl, ?_⟩
    simp [step, register, stepOfResult]
  | oauthEv p r =>
    refine ⟨rfl, rfl, ?_⟩
    simp [step, loginWithOAuth, stepOfResult]
  | logoutEv r =>
    refine ⟨rfl, rfl, ?_⟩
    simp [step, logout, stepOfResult]
  | initDemoLoad => exact absurd hop (by simp [DemoSessionOp])
  | initSessionOk s => exact absurd hop (by simp [DemoSessionOp])
  | initSessionFail => exact absurd hop (by simp [DemoSessionOp])
  | sessionChange s => exact absurd hop (by simp [DemoSessionOp])
  | demoLoginEv n => exact absurd hop (by simp [DemoSessionOp])

/-- C3, witness: a concrete demo-mode sequence ending in a login call. -/
theorem demo_storage_tracks_last_call_witness :
    (run false initWorld
      ([AuthEvent.registerEv "Grace" "g@x.com" "pw" ProviderResult.ok] ++
       [AuthEvent.loginEv "ada@x.com" "pw" ProviderResult.ok])).storage =
      demoSynthesized (AuthEvent.loginEv "ada@x.com" "pw" ProviderResult.ok) :=
  (demo_storage_tracks_last_call initWorld
    [AuthEvent.registerEv "Grace" "g@x.com" "pw" ProviderResult.ok]
    (AuthEvent.loginEv "ada@x.com" "pw" ProviderResult.ok) trivial).1

/-- The outcome of a form handler: the resulting state, the inline error
message it displays (if any), and whether the external provider was
invoked. -/
structure HandlerOutcome where
  world : World
  displayError : Option String
  providerCalled : Bool
deriving DecidableEq, Repr

/-- Embeds handleRegister of AuthModal.tsx: a password-confirmation
mismatch sets the inline error and returns before the register call; only
otherwise is register invoked, which reaches the provider exactly when it
is configured, and a caught provider error is converted to the displayed
message. -/
def handleRegister (configured : Bool) (name email password confirmPassword : String)
    (r : ProviderResult) (w : World) : HandlerOutcome :=
  if password ≠ confirmPassword then
    ⟨w, some "Passwords don\x27t match!", false⟩
  else
    match register configured name email password r w with
    | Except.ok w' => ⟨w', none, configured⟩
    | Except.error m => ⟨w, some m, configured⟩

/-- C5: whenever the submitted password differs from its confirmation, the
register flow fails fast with the local validation message: the provider
is not invoked, the state (hence the persisted demo record and the session
slots) is untouched, in demo and configured mode alike. -/
theorem register_mismatch_fails_fast (configured : Bool)
    (name email password confirmPassword : String) (r : ProviderResult)
    (w : World) (h : password ≠ confirmPassword) :
    handleRegister configured name email password confirmPassword r w =
      ⟨w, some "Passwords don\x27t match!", false⟩ := by
  simp [handleRegister, h]

/-- C5, witness: the mismatch abc versus xyz from the spec, in configured
mode with a provider that would have succeeded. -/
theorem register_mismatch_fails_fast_witness :
    handleRegister true "Ada" "ada@x.com" "abc" "xyz" ProviderResult.ok
      initWorld = ⟨initWorld, some "Passwords don\x27t match!", false⟩ :=
  register_mismatch_fails_fast true "Ada" "ada@x.com" "abc" "xyz"
    ProviderResult.ok initWorld (by decide)

/-- A reachable configured-mode state with a provider user, obtained from
one session-change notification. -/
def loggedInWorld : World :=
  run true initWorld [AuthEvent.sessionChange (some graceSession)]

/-- C6, counterexample: in configured mode, a successful logout call does
not directly clear the session slots, so immediately after the call
isLoggedIn can still be true: the claimed postcondition fails for the
authenticated identity kind. -/
theorem logout_clears_session_cex :
    (∀ e ∈ [AuthEvent.sessionChange (some graceSession)],
      canFire true e = true) ∧
    logout true ProviderResult.ok loggedInWorld = Except.ok loggedInWorld ∧
    isLoggedIn (stepOfResult loggedInWorld
      (logout true ProviderResult.ok loggedInWorld)) = true :=
  ⟨by decide, rfl, by decide⟩

/-- C6 (amended): after a successful logout in demo mode the session is
logged out and the persisted demo record is absent (the provider user
being empty in demo mode); in configured mode the successful logout call
itself leaves the state unchanged, and isLoggedIn becomes false only once
the sign-out session-change notification (a null session) is processed,
which also leaves the storage slot untouched. -/
theorem logout_clears_session (w : World) :
    (w.user = none →
      ∃ w', logout false ProviderResult.ok w = Except.ok w' ∧
        isLoggedIn w' = false ∧ w'.storage = none) ∧
    logout true ProviderResult.ok w = Except.ok w ∧
    (w.demoUser = none →
      isLoggedIn (step true w (AuthEvent.sessionChange none)) = false ∧
      (step true w (AuthEvent.sessionChange none)).storage = w.storage) := by
  refine ⟨?_, rfl, ?_⟩
  · intro hu
    exact ⟨{ w with demoUser := none, storage := none }, rfl,
      by simp [isLoggedIn, hu], rfl⟩
  · intro hd
    exact ⟨by simp [step, applySession, isLoggedIn, hd], rfl⟩

/-- C6, witness: the amended statement instantiated at the empty initial
state and at the reachable logged-in configured state. -/
theorem logout_clears_session_witness :
    (∃ w', logout false ProviderResult.ok initWorld = Except.ok w' ∧
      isLoggedIn w' = false ∧ w'.storage = none) ∧
    (isLoggedIn (step true loggedInWorld (AuthEvent.sessionChange none)) = false ∧
      (step true loggedInWorld (AuthEvent.sessionChange none)).storage =
        loggedInWorld.storage) :=
  ⟨(logout_clears_session initWorld).1 rfl,
   (logout_clears_session loggedInWorld).2.2 (by decide)⟩

/-- A provider user carrying a full-name metadata field. -/
def graceFullUser : SupaUser := ⟨"u4", some "gh@x.com", ⟨some "Grace Hopper", none, none⟩⟩

/-- A provider user carrying only a name metadata field. -/
def ghopperUser : SupaUser := ⟨"u5", some "gh@x.com", ⟨none, some "ghopper", none⟩⟩

/-- A configured-mode state holding the given provider user and no demo
identity. -/
def providerWorld (u : SupaUser) : World :=
  ⟨some u, some ⟨u⟩, false, none, none⟩

/-- A state holding a demo identity named Ada next to a provider user with
full metadata, to exercise the demo precedence. -/
def adaWorld : World :=
  ⟨some graceFullUser, some ⟨graceFullUser⟩, false,
   some ⟨"Ada", "ada@demo.com"⟩, some ⟨"Ada", "ada@demo.com"⟩⟩

/-- C1: getUserDisplayName resolves by precedence: a present demo identity
wins with its name regardless of provider metadata; otherwise a non-empty
metadata full-name, else a non-empty metadata name, else a non-empty
metadata preferred username, else the non-empty local part of the email,
else the literal User; with the concrete examples of the spec (Ada,
Grace Hopper, ghopper, grace).  Presence of a field is its JavaScript
truthiness: a defined, non-empty string. -/
theorem display_name_precedence :
    (∀ w d, w.demoUser = some d → getUserDisplayName w = d.name) ∧
    (∀ w u s, w.demoUser = none → w.user = some u →
      u.user_metadata.full_name = some s → s ≠ "" →
      getUserDisplayName w = s) ∧
    (∀ w u s, w.demoUser = none → w.user = some u →
      truthyStr u.user_metadata.full_name = none →
      u.user_metadata.name = some s → s ≠ "" →
      getUserDisplayName w = s) ∧
    (∀ w u s, w.demoUser = none → w.user = some u →
      truthyStr u.user_metadata.full_name = none →
      truthyStr u.user_metadata.name = none →
      u.user_metadata.preferred_username = some s → s ≠ "" →
      getUserDisplayName w = s) ∧
    (∀ w u e, w.demoUser = none → w.user = some u →
      truthyStr u.user_metadata.full_name = none →
      truthyStr u.user_metadata.name = none →
      truthyStr u.user_metadata.preferred_username = none →
      u.email = some e → emailLocalPart e ≠ "" →
      getUserDisplayName w = emailLocalPart e) ∧
    (∀ w u, w.demoUser = none → w.user = some u →
      truthyStr u.user_metadata.full_name = none →
      truthyStr u.user_metadata.name = none →
      truthyStr u.user_metadata.preferred_username = none →
      truthyStr (u.email.map emailLocalPart) = none →
      getUserDisplayName w = "User") ∧
    getUserDisplayName adaWorld = "Ada" ∧
    getUserDisplayName (providerWorld graceFullUser) = "Grace Hopper" ∧
    getUserDisplayName (providerWorld ghopperUser) = "ghopper" ∧
    getUserDisplayName (providerWorld grace) = "grace" := by
  refine ⟨?_, ?_, ?_, ?_, ?_, ?_, by decide, by decide, by decide, by decide⟩
  · intro w d hd
    simp [getUserDisplayName, hd]
  · intro w u s hd hu hf hs
    simp [getUserDisplayName, hd, hu, truthyStr, hf, hs]
  · intro w u s hd hu hf hn hs
    simp only [getUserDisplayName, hd, hu, hf]
    simp [truthyStr, hn, hs]
  · intro w u s hd hu hf hn hp hs
    simp only [getUserDisplayName, hd, hu, hf, hn]
    simp [truthyStr, hp, hs]
  · intro w u e hd hu hf hn hp he hs
    simp only [getUserDisplayName, hd, hu, hf, hn, hp]
    simp [truthyStr, he, hs]
  · intro w u hd hu hf hn hp he
    simp [getUserDisplayName, hd, hu, hf, hn, hp, he]

/-- C1, witness: the demo-precedence conjunct instantiated at the Ada
state, and the full-name conjunct at the Grace Hopper state. -/
theorem display_name_precedence_witness :
    getUserDisplayName adaWorld = "Ada" ∧
    getUserDisplayName (providerWorld graceFullUser) = "Grace Hopper" :=
  ⟨display_name_precedence.1 adaWorld ⟨"Ada", "ada@demo.com"⟩ rfl,
   display_name_precedence.2.1 (providerWorld graceFullUser) graceFullUser
     "Grace Hopper" rfl rfl rfl (by decide)⟩

/-- The role of one chat message of the CLI panel. -/
inductive MsgType where
  | user
  | agent
deriving DecidableEq, Repr

/-- One chat message of the CLI panel. -/
structure Message where
  type : MsgType
  content : String
deriving DecidableEq, Repr

/-- The opening message of the CLI panel. -/
def initialMessages : List Message :=
  [⟨MsgType.agent, "Welcome to Agentic CLI. How can I assist you today?"⟩]

/-- The five canned agent replies of the CLI panel. -/
def sampleResponses : List String :=
  ["Analyzing your request... I\x27ll help you with that.",
   "Running `npm install` and setting up your project structure...",
   "I\x27ve identified the issue. Let me fix that for you.",
   "Creating a new React component with TypeScript types...",
   "Optimizing your code for better performance..."]

/-- The CLI panel state: the message list, the input field and the
pending-response flag. -/
structure CLIState where
  messages : List Message
  input : String
  isTyping : Bool
deriving DecidableEq, Repr

/-- Embeds String.prototype.trim at the character-list level: leading and
trailing whitespace removed. -/
def jsTrim (s : String) : String :=
  String.mk
    (((s.data.dropWhile Char.isWhitespace).reverse.dropWhile
        Char.isWhitespace).reverse)

/-- Embeds handleSubmit of CLIPanel: empty or whitespace input, or a
pending response, appends nothing; otherwise the user message is appended,
the input cleared and a response marked pending. -/
def handleSubmit (st : CLIState) : CLIState :=
  if jsTrim st.input = "" || st.isTyping then st
  else ⟨st.messages ++ [⟨MsgType.user, st.input⟩], "", true⟩

/-- Embeds the timeout callback of CLIPanel: appends the canned response
selected by the random draw (an arbitrary natural taken modulo five) and
clears the pending flag.  The delay itself is not modelled; only the
message appended when it fires. -/
def agentRespond (r : Nat) (st : CLIState) : CLIState :=
  ⟨st.messages ++ [⟨MsgType.agent, sampleResponses.getD (r % 5) ""⟩],
   st.input, false⟩

/-- C9: a non-empty submission while no response is pending appends the
user message and then exactly one agent message drawn from the five canned
strings, whose content depends only on the random draw and never on the
submitted text (no parsing or execution); an empty or whitespace
submission, or one made while a response is pending, appends nothing. -/
theorem cli_panel_scripted (st : CLIState) (r : Nat) :
    (jsTrim st.input ≠ "" → st.isTyping = false →
      handleSubmit st = ⟨st.messages ++ [⟨MsgType.user, st.input⟩], "", true⟩ ∧
      agentRespond r (handleSubmit st) =
        ⟨st.messages ++ [⟨MsgType.user, st.input⟩,
          ⟨MsgType.agent, sampleResponses.getD (r % 5) ""⟩], "", false⟩ ∧
      sampleResponses.getD (r % 5) "" ∈ sampleResponses) ∧
    (jsTrim st.input = "" ∨ st.isTyping = true → handleSubmit st = st) := by
  constructor
  · intro hne htyp
    have hcond : (jsTrim st.input = "" || st.isTyping) = false := by
      simp [hne, htyp]
    have h1 : handleSubmit st =
        ⟨st.messages ++ [⟨MsgType.user, st.input⟩], "", true⟩ := by
      simp [handleSubmit, hcond]
    refine ⟨h1, by simp [h1, agentRespond], ?_⟩
    have h5 : r % 5 = 0 ∨ r % 5 = 1 ∨ r % 5 = 2 ∨ r % 5 = 3 ∨ r % 5 = 4 := by
      omega
    rcases h5 with h | h | h | h | h <;> rw [h] <;> decide
  · intro hcase
    rcases hcase with h | h <;> simp [handleSubmit, h]

/-- C9, witness: a concrete submission on the initial panel state with
random draw seven. -/
theorem cli_panel_scripted_witness :
    handleSubmit ⟨initialMessages, "fix my build", false⟩ =
      ⟨initialMessages ++ [⟨MsgType.user, "fix my build"⟩], "", true⟩ ∧
    sampleResponses.getD (7 % 5) "" ∈ sampleResponses :=
  ⟨((cli_panel_scripted ⟨initialMessages, "fix my build", false⟩ 7).1
      (by decide) rfl).1,
   ((cli_panel_scripted ⟨initialMessages, "fix my build", false⟩ 7).1
      (by decide) rfl).2.2⟩

/-- True exactly when the falsy chain of getUserDisplayName reaches its
final fallback: no truthy metadata field and no truthy email local
part. -/
def fallbackTaken (u : SupaUser) : Bool :=
  (truthyStr u.user_metadata.full_name).isNone &&
  (truthyStr u.user_metadata.name).isNone &&
  (truthyStr u.user_metadata.preferred_username).isNone &&
  (truthyStr (u.email.map emailLocalPart)).isNone

/-- A provider user whose email has an empty local part and who has no
display metadata. -/
def atSignUser : SupaUser := ⟨"u7", some "@x.com", ⟨none, none, none⟩⟩

/-- The reachable configured-mode state holding that user. -/
def atSignWorld : World :=
  run true initWorld [AuthEvent.sessionChange (some ⟨atSignUser⟩)]

/-- C10, counterexample: the User fallback is reachable for a provider
user who does have an email: with email at-x.com (empty local part) and no
metadata, getUserDisplayName returns User, refuting that the fallback is
reachable only with no email. -/
theorem display_name_fallback_cex :
    (∀ e ∈ [AuthEvent.sessionChange (some ⟨atSignUser⟩)],
      canFire true e = true) ∧
    atSignWorld.user = some atSignUser ∧
    atSignUser.email ≠ none ∧
    getUserDisplayName atSignWorld = "User" := by
  decide

/-- C10 (amended): with no identity at all, getUserDisplayName returns the
empty string, not User; the User fallback branch is taken for a provider
user exactly when no metadata field is truthy and the email yields no
truthy local part, which happens when the email is absent, empty, or has
an empty local part (so an email may be present). -/
theorem display_name_fallback (w : World) (u : SupaUser) :
    (w.demoUser = none → w.user = none → getUserDisplayName w = "") ∧
    (w.demoUser = none → w.user = some u → fallbackTaken u = true →
      getUserDisplayName w = "User") ∧
    (fallbackTaken u = true →
      truthyStr u.user_metadata.full_name = none ∧
      truthyStr u.user_metadata.name = none ∧
      truthyStr u.user_metadata.preferred_username = none ∧
      (u.email = none ∨ ∃ e, u.email = some e ∧ emailLocalPart e = "")) := by
  refine ⟨?_, ?_, ?_⟩
  · intro hd hu
    simp [getUserDisplayName, hd, hu]
  · intro hd hu hf
    simp only [fallbackTaken, Bool.and_eq_true, Option.isNone_iff_eq_none] at hf
    obtain ⟨⟨⟨h1, h2⟩, h3⟩, h4⟩ := hf
    simp [getUserDisplayName, hd, hu, h1, h2, h3, h4]
  · intro hf
    simp only [fallbackTaken, Bool.and_eq_true, Option.isNone_iff_eq_none] at hf
    obtain ⟨⟨⟨h1, h2⟩, h3⟩, h4⟩ := hf
    refine ⟨h1, h2, h3, ?_⟩
    cases he : u.email with
    | none => exact Or.inl rfl
    | some e =>
      refine Or.inr ⟨e, rfl, ?_⟩
      rw [he] at h4
      simp only [Option.map_some, truthyStr] at h4
      by_cases hz : emailLocalPart e = ""
      · exact hz
      · simp [hz] at h4

/-- C10, witness: the amended statement instantiated at the empty initial
state and at the at-sign user. -/
theorem display_name_fallback_witness :
    getUserDisplayName initWorld = "" ∧
    getUserDisplayName atSignWorld = "User" :=
  ⟨(display_name_fallback initWorld atSignUser).1 rfl rfl,
   (display_name_fallback atSignWorld atSignUser).2.1 (by decide) (by decide)
     (by decide)⟩

end Nebula
